import Mathlib

/-!
Shallow embedding of the SpeakMate Cloud Run webhook server
(`src/index.js`).  The source file holds two revisions of the server:
revision 1 (the Google AI Studio `callGeminiAPI` path, with the
`setImmediate` deferred processing) and revision 2 (the Vertex AI path,
where the webhook handler processes synchronously and answers at the
end).  Pure string and list operations mirror the JavaScript string
primitives; external I/O (Telegram, Google Cloud) is modelled by oracle
parameters giving each external call's outcome, and each handler returns
the conversation store it leaves behind together with the ordered trace
of its outbound actions.
-/

namespace SpeakMate

/-- JavaScript `String.prototype.startsWith`, on code points. -/
def jsStartsWith (s p : String) : Bool := p.data.isPrefixOf s.data

/-- JavaScript `String.prototype.substring(n)` (drop the first `n` code points). -/
def jsDrop (s : String) (n : Nat) : String := ⟨s.data.drop n⟩

/-- JavaScript `String.prototype.trim` (for the ASCII whitespace relevant here). -/
def jsTrim (s : String) : String :=
  ⟨((s.data.dropWhile Char.isWhitespace).reverse.dropWhile Char.isWhitespace).reverse⟩

/-- Substring test: JavaScript `String.prototype.includes`. -/
def containsSub : List Char → List Char → Bool
  | [], sub => sub.isPrefixOf []
  | a :: t, sub => sub.isPrefixOf (a :: t) || containsSub t sub

/-- JavaScript `s.includes(sub)`. -/
def jsIncludes (s sub : String) : Bool := containsSub s.data sub.data

/-- JavaScript `o || fb` on an optional string (`undefined` and `""` are falsy). -/
def jsOr (o : Option String) (fb : String) : String :=
  match o with
  | none => fb
  | some s => if s = "" then fb else s

/-- JavaScript `Array.prototype.slice(-n)`: the last `n` elements. -/
def sliceLast (n : Nat) (l : List α) : List α := l.drop (l.length - n)

/-- An entry of a conversation history (`{ role, text }` objects pushed in
`index.js`; the code stores the roles `"user"` and `"model"`, `"model"` being
the assistant side of the exchange). -/
structure Turn where
  role : String
  text : String
deriving DecidableEq, Repr

abbrev ChatId := Int

/-- The process-wide `chatHistories` `Map`, as an association list with the
most recently set binding in front. -/
abbrev Store := List (ChatId × List Turn)

/-- `chatHistories.get(chatId) || []` (revision 1 line 369, revision 2 line 807). -/
def storeGet (s : Store) (c : ChatId) : List Turn :=
  match s.find? (fun e => e.1 == c) with
  | some e => e.2
  | none => []

/-- `chatHistories.set(chatId, h)`. -/
def storeSet (s : Store) (c : ChatId) (h : List Turn) : Store :=
  (c, h) :: s.filter (fun e => !(e.1 == c))

/-- `chatHistories.delete(chatId)` (the `/reset` branch). -/
def storeDelete (s : Store) (c : ChatId) : Store :=
  s.filter (fun e => !(e.1 == c))

/-- The history update shared by both revisions:
`[...history, {role:'user',text}, {role:'model',text:reply}].slice(-20)`
(revision 1 lines 399-400, revision 2 lines 818-819). -/
def appendChat (h : List Turn) (userText reply : String) : List Turn :=
  sliceLast 20 (h ++ [⟨"user", userText⟩, ⟨"model", reply⟩])

/-- One `parts` entry of a Gemini candidate. -/
structure Part where
  text : Option String
deriving DecidableEq, Repr

/-- The `content` object of a Gemini candidate. -/
structure Content where
  parts : List Part
deriving DecidableEq, Repr

/-- One entry of `result.candidates`. -/
structure Candidate where
  content : Option Content
  finishReason : Option String
deriving DecidableEq, Repr

/-- The JSON body returned by the Gemini endpoint.  `error` is the optional
`result.error` object (inner option: its optional `message` field). -/
structure GeminiResult where
  error : Option (Option String)
  candidates : List Candidate
deriving DecidableEq, Repr

/-- `result.candidates?.[0]?.content?.parts?.[0]?.text` (revision 1 line 394). -/
def extractText (r : GeminiResult) : Option String :=
  r.candidates.head?.bind fun c =>
    c.content.bind fun ct => ct.parts.head?.bind fun p => p.text

/-- The outcome of the `fetch` to the Gemini endpoint inside `callGeminiAPI`:
an HTTP error status, a parsed JSON body, or a thrown error (carrying the
JavaScript error's `message`, `code` and `name` fields). -/
inductive FetchOutcome
  | httpError (status : Nat) (statusText : String)
  | ok (result : GeminiResult)
  | threw (message : String) (code : Option String) (name : Option String)
deriving DecidableEq, Repr

/-- The `try` block of `callGeminiAPI` (revision 1 lines 65-157): either the
validated result, or a thrown error with `message`/`code`/`name`. -/
def geminiTryBody : FetchOutcome → Except (String × Option String × Option String) GeminiResult
  | .threw msg code name => .error (msg, code, name)
  | .httpError status _statusText =>
      if status = 403 then
        .error ("API_KEY_INVALID: Google AI Studio API Key 无效或无权限", none, none)
      else if status = 429 then
        .error ("QUOTA_EXCEEDED: API 配额已用完，请等待重置", none, none)
      else if status = 400 then
        .error ("BAD_REQUEST: 请求格式错误或内容被安全过滤器阻止", none, none)
      else
        .error ("HTTP_ERROR: " ++ toString status ++ " - " ++ _statusText, none, none)
  | .ok result =>
      match result.error with
      | some m => .error ("GEMINI_API_ERROR: " ++ jsOr m "Unknown API error", none, none)
      | none =>
          match result.candidates with
          | [] => .error ("NO_RESPONSE: Gemini API 没有返回有效回复", none, none)
          | candidate :: _ =>
              if candidate.finishReason = some "SAFETY" then
                .error ("CONTENT_BLOCKED: 内容被安全过滤器阻止，请重新组织您的问题", none, none)
              else .ok result

/-- `callGeminiAPI` (revision 1 lines 64-179): the `try` body plus the `catch`
that passes through its own tagged errors and classifies everything else by
`code`/`name`/message. -/
def callGeminiAPI (o : FetchOutcome) : Except String GeminiResult :=
  match geminiTryBody o with
  | .ok r => .ok r
  | .error (msg, code, name) =>
      if jsIncludes msg "API_KEY_INVALID" || jsIncludes msg "QUOTA_EXCEEDED" ||
         jsIncludes msg "BAD_REQUEST" || jsIncludes msg "CONTENT_BLOCKED" ||
         jsIncludes msg "NO_RESPONSE" then
        .error msg
      else if code = some "ENOTFOUND" || code = some "ECONNREFUSED" then
        .error "NETWORK_ERROR: 网络连接失败，请检查网络设置"
      else if name = some "AbortError" then
        .error "TIMEOUT_ERROR: 请求超时，请稍后重试"
      else
        .error ("UNEXPECTED_ERROR: " ++ msg)

/-- The `catch` of `handleAIChat` (revision 1 lines 404-429): builds the
user-facing error text from the caught error's message. -/
def chatErrorMessage (msg : String) : String :=
  let base := "❌ AI聊天暂时不可用"
  if jsIncludes msg "403" || jsIncludes msg "API_KEY" then
    base ++ "\n\n🔑 API Key 问题：\n• 请检查 GOOGLE_AI_API_KEY 是否正确\n• 确保 API Key 有效且未过期"
  else if jsIncludes msg "429" || jsIncludes msg "QUOTA" then
    base ++ "\n\n📊 配额超限：\n• Google AI Studio 配额已用完\n• 请等待配额重置或升级计划"
  else if jsIncludes msg "400" then
    base ++ "\n\n🚫 请求格式错误：\n• 您的消息可能包含不支持的内容\n• 请重新组织您的问题"
  else
    base ++ "\n\n🔍 错误详情：" ++ msg

/-- The five failure classes named by the specification, read off the
conditions `callGeminiAPI` inspects (status code, error `code`/`name`,
safety `finishReason`). -/
inductive FailureClass
  | auth | quota | badRequest | network | unknown
deriving DecidableEq, Repr

/-- Which of the five specification classes a failing Gemini call falls in,
following exactly the conditions of `callGeminiAPI`'s branches. -/
def classifyOutcome (o : FetchOutcome) : FailureClass :=
  match o with
  | .httpError status _ =>
      if status = 403 then .auth
      else if status = 429 then .quota
      else if status = 400 then .badRequest
      else .unknown
  | .ok r =>
      match r.error with
      | some _ => .unknown
      | none =>
          match r.candidates with
          | [] => .unknown
          | candidate :: _ =>
              if candidate.finishReason = some "SAFETY" then .badRequest else .unknown
  | .threw _ code name =>
      if code = some "ENOTFOUND" || code = some "ECONNREFUSED" then .network
      else if name = some "AbortError" then .network
      else .unknown

/-- An inbound Telegram update's `message` field, as far as the handlers look
at it: `chat.id`, the optional `text`, and whether a `voice` attachment is
present. -/
structure Msg where
  chatId : ChatId
  text : Option String
  voice : Bool
deriving DecidableEq, Repr

/-- `const text = message.text || ''`. -/
def textOf (m : Msg) : String := m.text.getD ""

/-- Outbound calls a handler can perform (Telegram Bot API and Google Cloud
service calls), for the action traces. -/
inductive ExtCall
  | sendChatAction
  | sendMessage (text : String)
  | getFile
  | sttCall
  | translateCall (content : String)
  | ttsCall (content : String)
  | sendVoice
  | geminiCall
deriving DecidableEq, Repr

/-- An action of the webhook endpoint: the HTTP `200 OK` acknowledgement or an
outbound external call. -/
inductive Action
  | respond200
  | ext (e : ExtCall)
deriving DecidableEq, Repr

/-- Outcome of a voice-message flow: the recognized transcript, or a thrown
error together with the external calls that completed before the throw. -/
inductive VoiceOutcome
  | ok (transcript : String)
  | threw (pre : List ExtCall) (errMsg : String)
deriving DecidableEq, Repr

/-- Outcome of a cloud translation call: the translated text, or a thrown
error with the calls completed before the throw. -/
inductive CloudOutcome
  | ok (result : String)
  | threw (pre : List ExtCall) (errMsg : String)
deriving DecidableEq, Repr

/-- Outcome of the text-to-speech flow: synthesis and upload both succeeded,
the upload was rejected by Telegram (`result.ok` false, with `description`),
or a thrown error with the calls completed before the throw. -/
inductive TtsOutcome
  | uploaded
  | uploadRejected (desc : String)
  | threw (pre : List ExtCall) (errMsg : String)
deriving DecidableEq, Repr

/-- `handleVoiceMessage` (revision 1 lines 219-277): notify, fetch and
transcribe; its own `catch` reports the failure via `safeSendMessage`. -/
def handleVoiceMessage (o : VoiceOutcome) : List ExtCall :=
  match o with
  | .ok t =>
      [.sendMessage "🎙️ 正在识别语音，请稍候...", .getFile, .sttCall,
       .sendMessage ("🎯 识别结果: " ++ t)]
  | .threw pre e => pre ++ [.sendMessage ("❌ 语音识别失败：" ++ e)]

/-- `handleTranslation` (revision 1 lines 280-306). -/
def handleTranslation (content : String) (o : CloudOutcome) : List ExtCall :=
  match o with
  | .ok tr => [.sendChatAction, .translateCall content, .sendMessage ("🌐 翻译结果:\n" ++ tr)]
  | .threw pre e => pre ++ [.sendMessage ("❌ 翻译失败：" ++ e)]

/-- `handleTextToSpeech` (revision 1 lines 309-350); a rejected upload throws
`语音发送失败：…` into the handler's own `catch`. -/
def handleTextToSpeech (content : String) (o : TtsOutcome) : List ExtCall :=
  match o with
  | .uploaded => [.sendChatAction, .ttsCall content, .sendVoice]
  | .uploadRejected desc =>
      [.sendChatAction, .ttsCall content, .sendVoice,
       .sendMessage ("❌ 语音合成失败：语音发送失败：" ++ desc)]
  | .threw pre e => pre ++ [.sendMessage ("❌ 语音合成失败：" ++ e)]

/-- `handleAIChat` (revision 1 lines 353-430).  Oracles: whether
`GOOGLE_AI_API_KEY` is configured, whether the `typing` chat action threw
(with its error message), the outcome of `callGeminiAPI`, and whether the
reply `sendMessage` threw.  Returns the store it leaves behind and its
outbound trace; the history is committed (lines 398-400) only after the
Gemini call and the reply send both succeeded. -/
def handleAIChat (s : Store) (chatId : ChatId) (text : String) (hasApiKey : Bool)
    (typingErr : Option String) (gemini : Except String GeminiResult)
    (sendErr : Option String) : Store × List ExtCall :=
  if hasApiKey = false then
    (s, [.sendMessage "❌ AI聊天功能暂时不可用。\n\n请检查 GOOGLE_AI_API_KEY 环境变量是否正确配置。"])
  else
    match typingErr with
    | some e => (s, [.sendMessage (chatErrorMessage e)])
    | none =>
        match gemini with
        | .error e => (s, [.sendChatAction, .sendMessage (chatErrorMessage e)])
        | .ok result =>
            let reply := jsOr (extractText result) "抱歉，我无法生成回复。"
            match sendErr with
            | some e => (s, [.sendChatAction, .geminiCall, .sendMessage (chatErrorMessage e)])
            | none =>
                (storeSet s chatId (appendChat (storeGet s chatId) text reply),
                 [.sendChatAction, .geminiCall, .sendMessage reply])

/-- The oracle bundle for one revision-1 request. -/
structure OraclesV1 where
  voice : VoiceOutcome
  translation : CloudOutcome
  tts : TtsOutcome
  hasApiKey : Bool
  typingErr : Option String
  gemini : Except String GeminiResult
  sendErr : Option String
deriving Repr

/-- The help text of revision 1 (lines 481-492). -/
def helpTextV1 : String :=
  "🤖 欢迎使用 SpeakMate AI 机器人！\n\n我可以执行以下任务：\n\n🧠 **多轮 AI 聊天**：直接输入问题即可对话\n🌐 **文本翻译**：/translate <文本>\n🔊 **文本转语音**：/tts <文本>\n🎙️ **语音识别**：发送语音消息即可识别为文字\n🧹 **清除聊天记录**：/reset\n\n直接输入你的问题即可开始聊天！\n或尝试发送语音消息来测试语音识别功能。"

/-- The deferred (`setImmediate`) message processing of revision 1's webhook
handler (lines 459-525): voice first, then the text command chain, else the
AI-chat path; a message with neither text nor voice is dropped. -/
def processV1 (s : Store) (m : Msg) (o : OraclesV1) : Store × List ExtCall :=
  if m.voice then (s, handleVoiceMessage o.voice)
  else
    let text := textOf m
    if text = "" then (s, [])
    else if text = "/reset" then
      (storeDelete s m.chatId, [.sendMessage "🧹 对话上下文已清空。"])
    else if jsStartsWith text "/start" || jsStartsWith text "/help" then
      (s, [.sendMessage helpTextV1])
    else if jsStartsWith text "/translate" then
      let content := jsTrim (jsDrop text 10)
      if content = "" then (s, [.sendMessage "❓ 用法: /translate <要翻译的文本>"])
      else (s, handleTranslation content o.translation)
    else if jsStartsWith text "/tts" then
      let content := jsTrim (jsDrop text 4)
      if content = "" then (s, [.sendMessage "❓ 用法: /tts <要转为语音的文本>"])
      else (s, handleTextToSpeech content o.tts)
    else handleAIChat s m.chatId text o.hasApiKey o.typingErr o.gemini o.sendErr

/-- Revision 1's `app.post('/')` (lines 433-526): `res.status(200).send('OK')`
is the first statement; the body is then inspected and processing deferred. -/
def webhookV1 (s : Store) (body : Option Msg) (hasToken : Bool) (o : OraclesV1) :
    Store × List Action :=
  match body, hasToken with
  | none, _ => (s, [.respond200])
  | some _, false => (s, [.respond200])
  | some m, true =>
      let r := processV1 s m o
      (r.1, .respond200 :: r.2.map .ext)

/-- The oracle bundle for one revision-2 request. -/
structure OraclesV2 where
  voice : VoiceOutcome
  translation : CloudOutcome
  tts : TtsOutcome
  typingErr : Option String
  gemini : Except String String
  sendErr : Option String
deriving Repr

/-- The help text of revision 2 (lines 738-748). -/
def helpTextV2 : String :=
  "🤖 欢迎使用 SpeakMate AI 机器人！\n\n我可以执行以下任务：\n\n🧠 多轮 AI 聊天（具备上下文记忆）\n🌐 文本翻译：/translate <文本>\n🔊 文本转语音：/tts <文本>\n🎙️ 语音识别：发送语音消息即可识别为文字\n🧹 清除聊天上下文：/reset\n\n直接输入你的问题即可开始聊天！"

/-- The free-text branch of revision 2 (lines 805-819): typing indicator,
`generateContent`, send the reply, then commit the pair.  `Sum.inl` is normal
completion (store, calls, whether the branch `return`ed), `Sum.inr` a thrown
error (calls completed before the throw, error message). -/
def chatBranchV2 (s : Store) (chatId : ChatId) (text : String)
    (typingErr : Option String) (gemini : Except String String)
    (sendErr : Option String) :
    (Store × List ExtCall × Bool) ⊕ (List ExtCall × String) :=
  match typingErr with
  | some e => .inr ([], e)
  | none =>
      match gemini with
      | .error e => .inr ([.sendChatAction], e)
      | .ok reply =>
          match sendErr with
          | some e => .inr ([.sendChatAction, .geminiCall], e)
          | none =>
              .inl (storeSet s chatId (appendChat (storeGet s chatId) text reply),
                    [.sendChatAction, .geminiCall, .sendMessage reply], false)

/-- The `try` block of revision 2's `app.post('/')` (lines 711-820): voice
first, then the text command chain (note: no empty-content guard in the
`/translate` branch), else the chat branch.  The `Bool` of `Sum.inl` records
whether the branch `return`ed (skipping the final `res.status(200)`). -/
def tryBodyV2 (s : Store) (m : Msg) (o : OraclesV2) :
    (Store × List ExtCall × Bool) ⊕ (List ExtCall × String) :=
  if m.voice then
    match o.voice with
    | .ok t =>
        .inl (s, [.sendMessage "正在识别语音...", .getFile, .sttCall,
                  .sendMessage ("识别结果: " ++ t)], false)
    | .threw pre e => .inr (pre, e)
  else
    let text := textOf m
    if text = "" then .inl (s, [], false)
    else if text = "/reset" then
      .inl (storeDelete s m.chatId, [.sendMessage "对话上下文已清空。"], true)
    else if jsStartsWith text "/start" || jsStartsWith text "/help" then
      .inl (s, [.sendMessage helpTextV2], true)
    else if jsStartsWith text "/translate" then
      let content := jsTrim (jsDrop text 10)
      match o.translation with
      | .ok tr => .inl (s, [.translateCall content, .sendMessage ("翻译: " ++ tr)], true)
      | .threw pre e => .inr (pre, e)
    else if jsStartsWith text "/tts" then
      let content := jsTrim (jsDrop text 4)
      if content = "" then .inl (s, [.sendMessage "用法: /tts <要转为语音的文本>"], true)
      else
        match o.tts with
        | .uploaded => .inl (s, [.sendChatAction, .ttsCall content, .sendVoice], true)
        | .uploadRejected desc =>
            .inl (s, [.sendChatAction, .ttsCall content, .sendVoice,
                      .sendMessage ("语音发送失败：" ++ desc)], true)
        | .threw pre e => .inr (pre, e)
    else chatBranchV2 s m.chatId text o.typingErr o.gemini o.sendErr

/-- Revision 2's `app.post('/')` (lines 703-830): a body without `message` is
answered `200 OK` at once; otherwise the message is processed synchronously,
the `catch` sends a generic apology, and `res.status(200).send('OK')` runs
only when the branch did not `return` early. -/
def webhookV2 (s : Store) (body : Option Msg) (o : OraclesV2) : Store × List Action :=
  match body with
  | none => (s, [.respond200])
  | some m =>
      match tryBodyV2 s m o with
      | .inl (s2, acts, didReturn) =>
          if didReturn then (s2, acts.map .ext)
          else (s2, acts.map .ext ++ [.respond200])
      | .inr (acts, _e) =>
          (s, acts.map .ext ++ [.ext (.sendMessage "发生错误，稍后再试。"), .respond200])

/-- The effective assistant reply of revision 1 for a raw extracted text `r`
(`… || '抱歉，我无法生成回复。'`). -/
def replyOf (r : String) : String := if r = "" then "抱歉，我无法生成回复。" else r

/-- A Gemini body whose only candidate carries exactly the text `r`. -/
def mkResult (r : String) : GeminiResult :=
  ⟨none, [⟨some ⟨[⟨some r⟩]⟩, some "STOP"⟩]⟩

/-- Iterate revision 1's conversational-reply path over a list of
`(user text, raw model reply)` pairs, each Gemini call succeeding. -/
def runChats (s : Store) (c : ChatId) (msgs : List (String × String)) : Store :=
  msgs.foldl (fun st p => (handleAIChat st c p.1 true none (.ok (mkResult p.2)) none).1) s

/-- The turns such a run appends, with revision 1's fallback rule applied to
each raw reply. -/
def effTurns (msgs : List (String × String)) : List Turn :=
  msgs.flatMap fun p => [⟨"user", p.1⟩, ⟨"model", replyOf p.2⟩]

/-- Conversation histories reachable for a chat through the public operations:
the lazily-created empty history, the result of `/reset`, and the pair append
of a successful conversational reply. -/
inductive Reachable : List Turn → Prop
  | init : Reachable []
  | chat : ∀ h u r, Reachable h → Reachable (appendChat h u r)

/-- A history made of user/model pairs: each user turn immediately followed
by a model turn. -/
inductive Paired : List Turn → Prop
  | nil : Paired []
  | cons : ∀ u r rest, Paired rest → Paired (⟨"user", u⟩ :: ⟨"model", r⟩ :: rest)

/-! ### Helper lemmas -/

theorem data_append (a b : String) : (a ++ b).data = a.data ++ b.data := rfl

theorem string_data_inj {a b : String} (h : a.data = b.data) : a = b :=
  congrArg String.mk h

theorem isPrefixOf_self (l : List Char) : l.isPrefixOf l = true := by
  induction l with
  | nil => rfl
  | cons a as ih => simp [List.isPrefixOf, ih]

theorem isPrefixOf_append_eq (q p t : List Char) (h : q.length ≤ p.length) :
    q.isPrefixOf (p ++ t) = q.isPrefixOf p := by
  induction q generalizing p with
  | nil => simp [List.isPrefixOf]
  | cons a as ih =>
    match p with
    | [] => simp at h
    | b :: bs =>
      simp only [List.cons_append, List.isPrefixOf, List.append_eq]
      rw [ih bs (by simpa using h)]

theorem jsStartsWith_append_self (p w : String) : jsStartsWith (p ++ w) p = true := by
  unfold jsStartsWith
  rw [data_append, isPrefixOf_append_eq _ _ _ (Nat.le_refl _), isPrefixOf_self]

theorem jsStartsWith_append_eq (p w q : String) (h : q.data.length ≤ p.data.length) :
    jsStartsWith (p ++ w) q = jsStartsWith p q := by
  unfold jsStartsWith
  rw [data_append, isPrefixOf_append_eq _ _ _ h]

theorem append_ne_of_data_lt {p q : String} (w : String)
    (h : q.data.length < p.data.length) : (p ++ w) ≠ q := by
  intro he
  have h2 : (p ++ w).data = q.data := by rw [he]
  rw [data_append] at h2
  have h3 := congrArg List.length h2
  simp only [List.length_append] at h3
  omega

theorem append_ne_empty_of_ne {p : String} (w : String) (h : p.data ≠ []) :
    (p ++ w) ≠ "" := by
  intro he
  have h2 : (p ++ w).data = "".data := by rw [he]
  rw [data_append] at h2
  rcases List.append_eq_nil.mp h2 with ⟨h3, _⟩
  exact h h3

theorem jsDrop_append_length (p w : String) : jsDrop (p ++ w) p.data.length = w := by
  apply string_data_inj
  show ((p ++ w).data).drop p.data.length = w.data
  rw [data_append, List.drop_left]

theorem sliceLast_length_le (n : Nat) (l : List α) : (sliceLast n l).length ≤ n := by
  simp [sliceLast]; omega

theorem sliceLast_of_le {n : Nat} {l : List α} (h : l.length ≤ n) : sliceLast n l = l := by
  simp [sliceLast, Nat.sub_eq_zero_of_le h]

theorem sliceLast_append (n : Nat) (x y : List α) :
    sliceLast n (sliceLast n x ++ y) = sliceLast n (x ++ y) := by
  rcases Nat.le_total x.length n with h | h
  · rw [sliceLast_of_le h]
  · unfold sliceLast
    rw [List.drop_append_eq_append_drop, List.drop_append_eq_append_drop, List.drop_drop]
    have e1 : x.length - n + (((x.drop (x.length - n)).length + y.length) - n)
        = x.length + y.length - n := by simp [List.length_drop]; omega
    have e2 : ((x.drop (x.length - n)).length + y.length) - n - (x.drop (x.length - n)).length
        = x.length + y.length - n - x.length := by simp [List.length_drop]; omega
    rw [List.length_append, List.length_append, List.length_drop] at *
    rw [e1, e2]

theorem storeGet_set_self (s : Store) (c : ChatId) (h : List Turn) :
    storeGet (storeSet s c h) c = h := by
  simp [storeGet, storeSet, List.find?]

theorem storeGet_delete (s : Store) (c : ChatId) :
    storeGet (storeDelete s c) c = [] := by
  induction s with
  | nil => rfl
  | cons a t ih =>
    by_cases hc : a.1 == c
    · simpa [storeDelete, List.filter_cons, hc] using ih
    · simp only [storeDelete, List.filter_cons, hc] at ih ⊢
      simp only [Bool.not_false, if_true]
      simp [storeGet, List.find?, hc] at ih ⊢
      exact ih

theorem storeDelete_idem (s : Store) (c : ChatId) :
    storeDelete (storeDelete s c) c = storeDelete s c := by
  simp [storeDelete, List.filter_filter]

theorem append_ne_of_q_not_starts {p q : String} (w : String)
    (h : jsStartsWith q p = false) : (p ++ w) ≠ q := by
  intro he
  have h2 : jsStartsWith q p = true := by
    rw [← he]; exact jsStartsWith_append_self p w
  rw [h] at h2
  exact Bool.false_ne_true h2

/-- The success step of `handleAIChat` commits exactly the two-turn append. -/
theorem handleAIChat_success (s : Store) (c : ChatId) (t r : String) :
    (handleAIChat s c t true none (Except.ok (mkResult r)) none).1
      = storeSet s c (appendChat (storeGet s c) t (replyOf r)) := rfl

theorem runChats_get (c : ChatId) (msgs : List (String × String)) :
    ∀ s : Store, (storeGet s c).length ≤ 20 →
      storeGet (runChats s c msgs) c = sliceLast 20 (storeGet s c ++ effTurns msgs) := by
  induction msgs with
  | nil =>
    intro s h
    simp only [runChats, List.foldl_nil, effTurns, List.flatMap_nil, List.append_nil]
    exact (sliceLast_of_le h).symm
  | cons p rest ih =>
    intro s h
    have hstep : runChats s c (p :: rest)
        = runChats (storeSet s c (appendChat (storeGet s c) p.1 (replyOf p.2))) c rest := rfl
    rw [hstep, ih _ (by rw [storeGet_set_self]; exact sliceLast_length_le _ _),
        storeGet_set_self]
    unfold appendChat
    rw [sliceLast_append]
    simp [effTurns, List.append_assoc]

theorem paired_append_pair (u r : String) {h : List Turn} (hp : Paired h) :
    Paired (h ++ [⟨"user", u⟩, ⟨"model", r⟩]) := by
  induction hp with
  | nil => exact Paired.cons u r [] Paired.nil
  | cons u2 r2 rest _hrest ih =>
    simpa using Paired.cons u2 r2 _ ih

theorem paired_even {h : List Turn} (hp : Paired h) : 2 ∣ h.length := by
  induction hp with
  | nil => simp
  | cons u r rest _hrest ih =>
    obtain ⟨k, hk⟩ := ih
    exact ⟨k + 1, by simp [hk]; omega⟩

theorem paired_drop_two {h : List Turn} (hp : Paired h) : Paired (h.drop 2) := by
  cases hp with
  | nil => exact Paired.nil
  | cons u r rest hrest => simpa using hrest

theorem paired_appendChat (u r : String) {h : List Turn} (hp : Paired h)
    (hlen : h.length ≤ 20) : Paired (appendChat h u r) := by
  unfold appendChat sliceLast
  by_cases hc : h.length + 2 ≤ 20
  · have hz : (h ++ [(⟨"user", u⟩ : Turn), ⟨"model", r⟩]).length - 20 = 0 := by
      simp [List.length_append]; omega
    rw [hz, List.drop_zero]
    exact paired_append_pair u r hp
  · have h20 : h.length = 20 := by
      obtain ⟨k, hk⟩ := paired_even hp
      omega
    have hz : (h ++ [(⟨"user", u⟩ : Turn), ⟨"model", r⟩]).length - 20 = 2 := by
      simp [List.length_append, h20]
    rw [hz, List.drop_append_eq_append_drop, h20]
    simp only [show 2 - 20 = 0 from rfl, List.drop_zero]
    exact paired_append_pair u r (paired_drop_two hp)

theorem reachable_paired_bound {h : List Turn} (hr : Reachable h) :
    Paired h ∧ h.length ≤ 20 := by
  induction hr with
  | init => exact ⟨Paired.nil, by simp⟩
  | chat h0 u r _hr ih =>
    exact ⟨paired_appendChat u r ih.1 ih.2, sliceLast_length_le 20 _⟩

theorem paired_roles {h : List Turn} (hp : Paired h) :
    ∀ t ∈ h, t.role = "user" ∨ t.role = "model" := by
  induction hp with
  | nil => intro t ht; simp at ht
  | cons u r rest _hrest ih =>
    intro t ht
    rcases List.mem_cons.mp ht with h1 | h2
    · left; rw [h1]
    · rcases List.mem_cons.mp h2 with h3 | h4
      · right; rw [h3]
      · exact ih t h4

theorem processV1_voice_branch (s : Store) (c : ChatId) (t : Option String) (o : OraclesV1) :
    processV1 s ⟨c, t, true⟩ o = (s, handleVoiceMessage o.voice) := rfl

theorem processV1_empty_drop (s : Store) (c : ChatId) (o : OraclesV1) :
    processV1 s ⟨c, none, false⟩ o = (s, []) := rfl

theorem processV1_help_start (s : Store) (c : ChatId) (w : String) (o : OraclesV1) :
    processV1 s ⟨c, some ("/start" ++ w), false⟩ o = (s, [.sendMessage helpTextV1]) := by
  have hne : ("/start" ++ w) ≠ "" := @append_ne_empty_of_ne "/start" w (by decide)
  have hnr : ("/start" ++ w) ≠ "/reset" :=
    @append_ne_of_q_not_starts "/start" "/reset" w (by decide)
  have hs : jsStartsWith ("/start" ++ w) "/start" = true := jsStartsWith_append_self _ _
  simp [processV1, textOf, hne, hnr, hs]

theorem processV1_help_help (s : Store) (c : ChatId) (w : String) (o : OraclesV1) :
    processV1 s ⟨c, some ("/help" ++ w), false⟩ o = (s, [.sendMessage helpTextV1]) := by
  have hne : ("/help" ++ w) ≠ "" := @append_ne_empty_of_ne "/help" w (by decide)
  have hnr : ("/help" ++ w) ≠ "/reset" :=
    @append_ne_of_q_not_starts "/help" "/reset" w (by decide)
  have hst : jsStartsWith ("/help" ++ w) "/start" = false := by
    simp [jsStartsWith, data_append, List.isPrefixOf]
  have hs : jsStartsWith ("/help" ++ w) "/help" = true := jsStartsWith_append_self _ _
  simp [processV1, textOf, hne, hnr, hst, hs]

theorem processV1_translate_branch (s : Store) (c : ChatId) (w : String) (o : OraclesV1) :
    processV1 s ⟨c, some ("/translate" ++ w), false⟩ o
      = (s, if jsTrim w = "" then [ExtCall.sendMessage "❓ 用法: /translate <要翻译的文本>"]
            else handleTranslation (jsTrim w) o.translation) := by
  have hne : ("/translate" ++ w) ≠ "" := @append_ne_empty_of_ne "/translate" w (by decide)
  have hnr : ("/translate" ++ w) ≠ "/reset" :=
    @append_ne_of_q_not_starts "/translate" "/reset" w (by decide)
  have hst : jsStartsWith ("/translate" ++ w) "/start" = false := by
    simp [jsStartsWith, data_append, List.isPrefixOf]
  have hhe : jsStartsWith ("/translate" ++ w) "/help" = false := by
    simp [jsStartsWith, data_append, List.isPrefixOf]
  have hs : jsStartsWith ("/translate" ++ w) "/translate" = true := jsStartsWith_append_self _ _
  have hdrop : jsDrop ("/translate" ++ w) 10 = w := jsDrop_append_length "/translate" w
  simp [processV1, textOf, hne, hnr, hst, hhe, hs, hdrop]
  split <;> rfl

theorem processV1_tts_branch (s : Store) (c : ChatId) (w : String) (o : OraclesV1) :
    processV1 s ⟨c, some ("/tts" ++ w), false⟩ o
      = (s, if jsTrim w = "" then [ExtCall.sendMessage "❓ 用法: /tts <要转为语音的文本>"]
            else handleTextToSpeech (jsTrim w) o.tts) := by
  have hne : ("/tts" ++ w) ≠ "" := @append_ne_empty_of_ne "/tts" w (by decide)
  have hnr : ("/tts" ++ w) ≠ "/reset" :=
    @append_ne_of_q_not_starts "/tts" "/reset" w (by decide)
  have hst : jsStartsWith ("/tts" ++ w) "/start" = false := by
    simp [jsStartsWith, data_append, List.isPrefixOf]
  have hhe : jsStartsWith ("/tts" ++ w) "/help" = false := by
    simp [jsStartsWith, data_append, List.isPrefixOf]
  have htr : jsStartsWith ("/tts" ++ w) "/translate" = false := by
    simp [jsStartsWith, data_append, List.isPrefixOf]
  have hs : jsStartsWith ("/tts" ++ w) "/tts" = true := jsStartsWith_append_self _ _
  have hdrop : jsDrop ("/tts" ++ w) 4 = w := jsDrop_append_length "/tts" w
  simp [processV1, textOf, hne, hnr, hst, hhe, htr, hs, hdrop]
  split <;> rfl

theorem processV1_freetext (s : Store) (c : ChatId) (t : String) (o : OraclesV1)
    (h0 : t ≠ "") (h1 : t ≠ "/reset")
    (h2 : jsStartsWith t "/start" = false) (h3 : jsStartsWith t "/help" = false)
    (h4 : jsStartsWith t "/translate" = false) (h5 : jsStartsWith t "/tts" = false) :
    processV1 s ⟨c, some t, false⟩ o
      = handleAIChat s c t o.hasApiKey o.typingErr o.gemini o.sendErr := by
  simp [processV1, textOf, h0, h1, h2, h3, h4, h5]

theorem tryBodyV2_voice_branch (s : Store) (c : ChatId) (t : Option String) (o : OraclesV2) :
    tryBodyV2 s ⟨c, t, true⟩ o
      = (match o.voice with
         | VoiceOutcome.ok tr =>
             Sum.inl (s, [ExtCall.sendMessage "正在识别语音...", ExtCall.getFile,
                          ExtCall.sttCall, ExtCall.sendMessage ("识别结果: " ++ tr)], false)
         | VoiceOutcome.threw pre e => Sum.inr (pre, e)) := by
  rcases o with ⟨v, otr, ots, ote, og, ose⟩
  cases v <;> rfl

theorem tryBodyV2_translate_branch (s : Store) (c : ChatId) (w : String) (o : OraclesV2) :
    tryBodyV2 s ⟨c, some ("/translate" ++ w), false⟩ o
      = (match o.translation with
         | CloudOutcome.ok tr =>
             Sum.inl (s, [ExtCall.translateCall (jsTrim w),
                          ExtCall.sendMessage ("翻译: " ++ tr)], true)
         | CloudOutcome.threw pre e => Sum.inr (pre, e)) := by
  have hne : ("/translate" ++ w) ≠ "" := @append_ne_empty_of_ne "/translate" w (by decide)
  have hnr : ("/translate" ++ w) ≠ "/reset" :=
    @append_ne_of_q_not_starts "/translate" "/reset" w (by decide)
  have hst : jsStartsWith ("/translate" ++ w) "/start" = false := by
    simp [jsStartsWith, data_append, List.isPrefixOf]
  have hhe : jsStartsWith ("/translate" ++ w) "/help" = false := by
    simp [jsStartsWith, data_append, List.isPrefixOf]
  have hs : jsStartsWith ("/translate" ++ w) "/translate" = true := jsStartsWith_append_self _ _
  have hdrop : jsDrop ("/translate" ++ w) 10 = w := jsDrop_append_length "/translate" w
  rcases o with ⟨v, otr, ots, ote, og, ose⟩
  cases otr <;> simp [tryBodyV2, textOf, hne, hnr, hst, hhe, hs, hdrop]

theorem tryBodyV2_empty_drop (s : Store) (c : ChatId) (o : OraclesV2) :
    tryBodyV2 s ⟨c, none, false⟩ o = Sum.inl (s, [], false) := rfl

theorem tryBodyV2_help_start (s : Store) (c : ChatId) (w : String) (o : OraclesV2) :
    tryBodyV2 s ⟨c, some ("/start" ++ w), false⟩ o
      = Sum.inl (s, [ExtCall.sendMessage helpTextV2], true) := by
  have hne : ("/start" ++ w) ≠ "" := @append_ne_empty_of_ne "/start" w (by decide)
  have hnr : ("/start" ++ w) ≠ "/reset" :=
    @append_ne_of_q_not_starts "/start" "/reset" w (by decide)
  have hs : jsStartsWith ("/start" ++ w) "/start" = true := jsStartsWith_append_self _ _
  simp [tryBodyV2, textOf, hne, hnr, hs]

theorem tryBodyV2_help_help (s : Store) (c : ChatId) (w : String) (o : OraclesV2) :
    tryBodyV2 s ⟨c, some ("/help" ++ w), false⟩ o
      = Sum.inl (s, [ExtCall.sendMessage helpTextV2], true) := by
  have hne : ("/help" ++ w) ≠ "" := @append_ne_empty_of_ne "/help" w (by decide)
  have hnr : ("/help" ++ w) ≠ "/reset" :=
    @append_ne_of_q_not_starts "/help" "/reset" w (by decide)
  have hst : jsStartsWith ("/help" ++ w) "/start" = false := by
    simp [jsStartsWith, data_append, List.isPrefixOf]
  have hs : jsStartsWith ("/help" ++ w) "/help" = true := jsStartsWith_append_self _ _
  simp [tryBodyV2, textOf, hne, hnr, hst, hs]

theorem tryBodyV2_tts_branch (s : Store) (c : ChatId) (w : String) (o : OraclesV2) :
    tryBodyV2 s ⟨c, some ("/tts" ++ w), false⟩ o
      = (if jsTrim w = "" then
           Sum.inl (s, [ExtCall.sendMessage "用法: /tts <要转为语音的文本>"], true)
         else
           match o.tts with
           | TtsOutcome.uploaded =>
               Sum.inl (s, [ExtCall.sendChatAction, ExtCall.ttsCall (jsTrim w),
                            ExtCall.sendVoice], true)
           | TtsOutcome.uploadRejected desc =>
               Sum.inl (s, [ExtCall.sendChatAction, ExtCall.ttsCall (jsTrim w),
                            ExtCall.sendVoice,
                            ExtCall.sendMessage ("语音发送失败：" ++ desc)], true)
           | TtsOutcome.threw pre e => Sum.inr (pre, e)) := by
  have hne : ("/tts" ++ w) ≠ "" := @append_ne_empty_of_ne "/tts" w (by decide)
  have hnr : ("/tts" ++ w) ≠ "/reset" :=
    @append_ne_of_q_not_starts "/tts" "/reset" w (by decide)
  have hst : jsStartsWith ("/tts" ++ w) "/start" = false := by
    simp [jsStartsWith, data_append, List.isPrefixOf]
  have hhe : jsStartsWith ("/tts" ++ w) "/help" = false := by
    simp [jsStartsWith, data_append, List.isPrefixOf]
  have htr : jsStartsWith ("/tts" ++ w) "/translate" = false := by
    simp [jsStartsWith, data_append, List.isPrefixOf]
  have hs : jsStartsWith ("/tts" ++ w) "/tts" = true := jsStartsWith_append_self _ _
  have hdrop : jsDrop ("/tts" ++ w) 4 = w := jsDrop_append_length "/tts" w
  rcases o with ⟨v, otr, ots, ote, og, ose⟩
  cases ots <;> simp [tryBodyV2, textOf, hne, hnr, hst, hhe, htr, hs, hdrop]

theorem tryBodyV2_freetext (s : Store) (c : ChatId) (t : String) (o : OraclesV2)
    (h0 : t ≠ "") (h1 : t ≠ "/reset")
    (h2 : jsStartsWith t "/start" = false) (h3 : jsStartsWith t "/help" = false)
    (h4 : jsStartsWith t "/translate" = false) (h5 : jsStartsWith t "/tts" = false) :
    tryBodyV2 s ⟨c, some t, false⟩ o
      = chatBranchV2 s c t o.typingErr o.gemini o.sendErr := by
  simp [tryBodyV2, textOf, h0, h1, h2, h3, h4, h5]

/-! ### Claim theorems -/

/-- C1.  After a run of `N > 20` successful conversational-reply turns for a
fresh chat id, `storeGet` returns exactly the most recent 20 of the appended
turns — the suffix obtained by dropping from the oldest end — and the stored
history has length exactly 20. -/
theorem conversation_history_bound (c : ChatId) (s : Store)
    (msgs : List (String × String)) (h0 : storeGet s c = [])
    (hN : 20 < (effTurns msgs).length) :
    storeGet (runChats s c msgs) c
      = (effTurns msgs).drop ((effTurns msgs).length - 20)
    ∧ (storeGet (runChats s c msgs) c).length = 20 := by
  have h := runChats_get c msgs s (by rw [h0]; simp)
  rw [h0, List.nil_append] at h
  refine ⟨h, ?_⟩
  rw [h]
  simp only [sliceLast, List.length_drop]
  omega

/-- C1 witness: eleven successful exchanges append 22 turns; the store keeps
exactly the last 20. -/
theorem conversation_history_bound_witness :
    storeGet (runChats [] 0 [("u1", "r1"), ("u2", "r2"), ("u3", "r3"), ("u4", "r4"),
        ("u5", "r5"), ("u6", "r6"), ("u7", "r7"), ("u8", "r8"), ("u9", "r9"),
        ("u10", "r10"), ("u11", "r11")]) 0
      = (effTurns [("u1", "r1"), ("u2", "r2"), ("u3", "r3"), ("u4", "r4"),
          ("u5", "r5"), ("u6", "r6"), ("u7", "r7"), ("u8", "r8"), ("u9", "r9"),
          ("u10", "r10"), ("u11", "r11")]).drop
          ((effTurns [("u1", "r1"), ("u2", "r2"), ("u3", "r3"), ("u4", "r4"),
            ("u5", "r5"), ("u6", "r6"), ("u7", "r7"), ("u8", "r8"), ("u9", "r9"),
            ("u10", "r10"), ("u11", "r11")]).length - 20)
    ∧ (storeGet (runChats [] 0 [("u1", "r1"), ("u2", "r2"), ("u3", "r3"), ("u4", "r4"),
        ("u5", "r5"), ("u6", "r6"), ("u7", "r7"), ("u8", "r8"), ("u9", "r9"),
        ("u10", "r10"), ("u11", "r11")]) 0).length = 20 :=
  conversation_history_bound 0 [] _ rfl (by decide)

/-- C9.  Every conversation history reachable through the public operations
(lazy creation, reset, successful pair append) is a sequence of user/model
pairs — each user turn immediately followed by a model turn — hence of even
length, and never longer than 20. -/
theorem history_paired_invariant {h : List Turn} (hr : Reachable h) :
    Paired h ∧ 2 ∣ h.length ∧ h.length ≤ 20 := by
  obtain ⟨hp, hb⟩ := reachable_paired_bound hr
  exact ⟨hp, paired_even hp, hb⟩

/-- C9 witness at the history produced by one successful exchange. -/
theorem history_paired_invariant_witness :
    Paired (appendChat [] "hi" "hello")
    ∧ 2 ∣ (appendChat [] "hi" "hello").length
    ∧ (appendChat [] "hi" "hello").length ≤ 20 :=
  history_paired_invariant (Reachable.chat [] "hi" "hello" Reachable.init)

/-- C6.  In every reachable history each stored turn's role is `"user"` or
`"model"` (the latter being the assistant side), and the pair-append
operation never rewrites an existing turn: every turn of the updated history
is either one of the old turns, unchanged, or one of the two freshly created
turns. -/
theorem turn_role_closed {h : List Turn} (hr : Reachable h) :
    (∀ t ∈ h, t.role = "user" ∨ t.role = "model")
    ∧ ∀ (u r : String) (t : Turn), t ∈ appendChat h u r →
        t ∈ h ∨ t = ⟨"user", u⟩ ∨ t = ⟨"model", r⟩ := by
  refine ⟨paired_roles (reachable_paired_bound hr).1, ?_⟩
  intro u r t ht
  have hsub : t ∈ h ++ [(⟨"user", u⟩ : Turn), ⟨"model", r⟩] :=
    List.drop_subset _ _ ht
  rcases List.mem_append.mp hsub with h1 | h2
  · exact Or.inl h1
  · rcases List.mem_cons.mp h2 with h3 | h4
    · exact Or.inr (Or.inl h3)
    · rcases List.mem_cons.mp h4 with h5 | h6
      · exact Or.inr (Or.inr h5)
      · simp at h6

/-- C6 witness at the history produced by one successful exchange. -/
theorem turn_role_closed_witness :
    (∀ t ∈ appendChat [] "hi" "hello", t.role = "user" ∨ t.role = "model")
    ∧ ∀ (u r : String) (t : Turn), t ∈ appendChat (appendChat [] "hi" "hello") u r →
        t ∈ appendChat [] "hi" "hello" ∨ t = ⟨"user", u⟩ ∨ t = ⟨"model", r⟩ :=
  turn_role_closed (Reachable.chat [] "hi" "hello" Reachable.init)

/-- C5.  A failing Gemini call leaves the store untouched; in general the
revision-1 chat path either leaves the store exactly as it was or the call
succeeded and exactly the user/model pair was committed; revision 2's chat
branch likewise throws without touching the store when the model call
fails. -/
theorem chat_failure_no_commit :
    (∀ (s : Store) (c : ChatId) (text : String) (k : Bool) (te : Option String)
        (e : String) (se : Option String),
        (handleAIChat s c text k te (Except.error e) se).1 = s)
    ∧ (∀ (s : Store) (c : ChatId) (text : String) (k : Bool) (te : Option String)
        (g : Except String GeminiResult) (se : Option String),
        (handleAIChat s c text k te g se).1 = s
        ∨ ∃ r, g = Except.ok r ∧ (handleAIChat s c text k te g se).1
            = storeSet s c (appendChat (storeGet s c) text
                (jsOr (extractText r) "抱歉，我无法生成回复。")))
    ∧ (∀ (s : Store) (c : ChatId) (text : String) (e : String) (se : Option String),
        chatBranchV2 s c text none (Except.error e) se
          = Sum.inr ([ExtCall.sendChatAction], e)) := by
  refine ⟨?_, ?_, ?_⟩
  · intro s c text k te e se
    cases k <;> cases te <;> cases se <;> rfl
  · intro s c text k te g se
    cases k with
    | false => left; rfl
    | true =>
      cases te with
      | some e => left; rfl
      | none =>
        cases g with
        | error e => left; rfl
        | ok r =>
          cases se with
          | some e => left; rfl
          | none => exact Or.inr ⟨r, rfl, rfl⟩
  · intro s c text e se
    rfl

/-- C10.  When the Gemini call succeeds but no text part can be extracted
from the response, revision 1 sends the fixed fallback string and commits it
to the history as the model turn. -/
theorem no_text_fallback_reply (s : Store) (c : ChatId) (text : String)
    (r : GeminiResult) (h : extractText r = none) :
    handleAIChat s c text true none (Except.ok r) none
      = (storeSet s c (appendChat (storeGet s c) text "抱歉，我无法生成回复。"),
         [ExtCall.sendChatAction, ExtCall.geminiCall,
          ExtCall.sendMessage "抱歉，我无法生成回复。"]) := by
  simp [handleAIChat, h, jsOr]

/-- C10 witness: a response whose candidate has no content yields the
fallback reply. -/
theorem no_text_fallback_reply_witness :
    handleAIChat [] 0 "hi" true none
        (Except.ok ⟨none, [⟨none, some "STOP"⟩]⟩) none
      = (storeSet [] 0 (appendChat (storeGet [] 0) "hi" "抱歉，我无法生成回复。"),
         [ExtCall.sendChatAction, ExtCall.geminiCall,
          ExtCall.sendMessage "抱歉，我无法生成回复。"]) :=
  no_text_fallback_reply [] 0 "hi" ⟨none, [⟨none, some "STOP"⟩]⟩ rfl

/-- C8.  Clearing then reading returns the empty history for populated and
never-seen chat ids alike, clearing is idempotent (clearing an absent chat is
a no-op), reading an absent chat returns the empty history, and both
revisions' `/reset` branches perform exactly this delete. -/
theorem store_clear_get_contract :
    (∀ (s : Store) (c : ChatId), storeGet (storeDelete s c) c = [])
    ∧ (∀ (s : Store) (c : ChatId), storeDelete (storeDelete s c) c = storeDelete s c)
    ∧ (∀ c : ChatId, storeGet ([] : Store) c = [])
    ∧ (∀ c : ChatId, storeDelete ([] : Store) c = [])
    ∧ (∀ (s : Store) (c : ChatId) (o : OraclesV1),
        processV1 s ⟨c, some "/reset", false⟩ o
          = (storeDelete s c, [ExtCall.sendMessage "🧹 对话上下文已清空。"]))
    ∧ (∀ (s : Store) (c : ChatId) (o : OraclesV2),
        tryBodyV2 s ⟨c, some "/reset", false⟩ o
          = Sum.inl (storeDelete s c, [ExtCall.sendMessage "对话上下文已清空。"], true)) := by
  refine ⟨storeGet_delete, storeDelete_idem, fun c => rfl, fun c => rfl, ?_, ?_⟩
  · intro s c o; rfl
  · intro s c o; rfl

/-- C3 counterexample.  A message carrying both a voice attachment and the
exact text `/reset` is dispatched to the voice handler in both revisions: the
history is not cleared and no reset confirmation is sent, refuting the claimed
precedence of text commands over the attachment. -/
theorem dispatch_voice_precedence_cex :
    processV1 [(0, [⟨"user", "a"⟩, ⟨"model", "b"⟩])] ⟨0, some "/reset", true⟩
        ⟨VoiceOutcome.ok "t", CloudOutcome.ok "x", TtsOutcome.uploaded, true, none,
         Except.ok (mkResult "y"), none⟩
      = ([(0, [⟨"user", "a"⟩, ⟨"model", "b"⟩])], handleVoiceMessage (VoiceOutcome.ok "t"))
    ∧ processV1 [(0, [⟨"user", "a"⟩, ⟨"model", "b"⟩])] ⟨0, some "/reset", true⟩
        ⟨VoiceOutcome.ok "t", CloudOutcome.ok "x", TtsOutcome.uploaded, true, none,
         Except.ok (mkResult "y"), none⟩
      ≠ (storeDelete [(0, [⟨"user", "a"⟩, ⟨"model", "b"⟩])] 0,
         [ExtCall.sendMessage "🧹 对话上下文已清空。"])
    ∧ tryBodyV2 [(0, [⟨"user", "a"⟩, ⟨"model", "b"⟩])] ⟨0, some "/reset", true⟩
        ⟨VoiceOutcome.ok "t", CloudOutcome.ok "x", TtsOutcome.uploaded, none,
         Except.ok "y", none⟩
      = Sum.inl ([(0, [⟨"user", "a"⟩, ⟨"model", "b"⟩])],
          [ExtCall.sendMessage "正在识别语音...", ExtCall.getFile, ExtCall.sttCall,
           ExtCall.sendMessage ("识别结果: " ++ "t")], false) :=
  ⟨rfl, by decide, rfl⟩

/-- C3 amended.  Handler selection checks the voice attachment first, in both
revisions, regardless of any text; only messages without an attachment are
routed by text — in both revisions — in the order exact `/reset`, prefix
`/start` or `/help`, prefix `/translate`, prefix `/tts`, then non-empty free
text, and a message with neither text nor attachment is dropped. -/
theorem dispatch_precedence_amended :
    (∀ (s : Store) (c : ChatId) (t : Option String) (o : OraclesV1),
        processV1 s ⟨c, t, true⟩ o = (s, handleVoiceMessage o.voice))
    ∧ (∀ (s : Store) (c : ChatId) (t : Option String) (o : OraclesV2),
        tryBodyV2 s ⟨c, t, true⟩ o
          = (match o.voice with
             | VoiceOutcome.ok tr =>
                 Sum.inl (s, [ExtCall.sendMessage "正在识别语音...", ExtCall.getFile,
                              ExtCall.sttCall, ExtCall.sendMessage ("识别结果: " ++ tr)], false)
             | VoiceOutcome.threw pre e => Sum.inr (pre, e)))
    ∧ (∀ (s : Store) (c : ChatId) (o : OraclesV1),
        processV1 s ⟨c, some "/reset", false⟩ o
          = (storeDelete s c, [ExtCall.sendMessage "🧹 对话上下文已清空。"]))
    ∧ (∀ (s : Store) (c : ChatId) (w : String) (o : OraclesV1),
        processV1 s ⟨c, some ("/start" ++ w), false⟩ o = (s, [ExtCall.sendMessage helpTextV1]))
    ∧ (∀ (s : Store) (c : ChatId) (w : String) (o : OraclesV1),
        processV1 s ⟨c, some ("/help" ++ w), false⟩ o = (s, [ExtCall.sendMessage helpTextV1]))
    ∧ (∀ (s : Store) (c : ChatId) (w : String) (o : OraclesV1),
        processV1 s ⟨c, some ("/translate" ++ w), false⟩ o
          = (s, if jsTrim w = "" then [ExtCall.sendMessage "❓ 用法: /translate <要翻译的文本>"]
                else handleTranslation (jsTrim w) o.translation))
    ∧ (∀ (s : Store) (c : ChatId) (w : String) (o : OraclesV1),
        processV1 s ⟨c, some ("/tts" ++ w), false⟩ o
          = (s, if jsTrim w = "" then [ExtCall.sendMessage "❓ 用法: /tts <要转为语音的文本>"]
                else handleTextToSpeech (jsTrim w) o.tts))
    ∧ (∀ (s : Store) (c : ChatId) (t : String) (o : OraclesV1),
        t ≠ "" → t ≠ "/reset" →
        jsStartsWith t "/start" = false → jsStartsWith t "/help" = false →
        jsStartsWith t "/translate" = false → jsStartsWith t "/tts" = false →
        processV1 s ⟨c, some t, false⟩ o
          = handleAIChat s c t o.hasApiKey o.typingErr o.gemini o.sendErr)
    ∧ (∀ (s : Store) (c : ChatId) (o : OraclesV1),
        processV1 s ⟨c, none, false⟩ o = (s, []))
    ∧ (∀ (s : Store) (c : ChatId) (o : OraclesV2),
        tryBodyV2 s ⟨c, some "/reset", false⟩ o
          = Sum.inl (storeDelete s c, [ExtCall.sendMessage "对话上下文已清空。"], true))
    ∧ (∀ (s : Store) (c : ChatId) (w : String) (o : OraclesV2),
        tryBodyV2 s ⟨c, some ("/start" ++ w), false⟩ o
          = Sum.inl (s, [ExtCall.sendMessage helpTextV2], true))
    ∧ (∀ (s : Store) (c : ChatId) (w : String) (o : OraclesV2),
        tryBodyV2 s ⟨c, some ("/help" ++ w), false⟩ o
          = Sum.inl (s, [ExtCall.sendMessage helpTextV2], true))
    ∧ (∀ (s : Store) (c : ChatId) (w : String) (o : OraclesV2),
        tryBodyV2 s ⟨c, some ("/translate" ++ w), false⟩ o
          = (match o.translation with
             | CloudOutcome.ok tr =>
                 Sum.inl (s, [ExtCall.translateCall (jsTrim w),
                              ExtCall.sendMessage ("翻译: " ++ tr)], true)
             | CloudOutcome.threw pre e => Sum.inr (pre, e)))
    ∧ (∀ (s : Store) (c : ChatId) (w : String) (o : OraclesV2),
        tryBodyV2 s ⟨c, some ("/tts" ++ w), false⟩ o
          = (if jsTrim w = "" then
               Sum.inl (s, [ExtCall.sendMessage "用法: /tts <要转为语音的文本>"], true)
             else
               match o.tts with
               | TtsOutcome.uploaded =>
                   Sum.inl (s, [ExtCall.sendChatAction, ExtCall.ttsCall (jsTrim w),
                                ExtCall.sendVoice], true)
               | TtsOutcome.uploadRejected desc =>
                   Sum.inl (s, [ExtCall.sendChatAction, ExtCall.ttsCall (jsTrim w),
                                ExtCall.sendVoice,
                                ExtCall.sendMessage ("语音发送失败：" ++ desc)], true)
               | TtsOutcome.threw pre e => Sum.inr (pre, e)))
    ∧ (∀ (s : Store) (c : ChatId) (t : String) (o : OraclesV2),
        t ≠ "" → t ≠ "/reset" →
        jsStartsWith t "/start" = false → jsStartsWith t "/help" = false →
        jsStartsWith t "/translate" = false → jsStartsWith t "/tts" = false →
        tryBodyV2 s ⟨c, some t, false⟩ o
          = chatBranchV2 s c t o.typingErr o.gemini o.sendErr)
    ∧ (∀ (s : Store) (c : ChatId) (o : OraclesV2),
        tryBodyV2 s ⟨c, none, false⟩ o = Sum.inl (s, [], false)) :=
  ⟨processV1_voice_branch, tryBodyV2_voice_branch, fun _ _ _ => rfl,
   processV1_help_start, processV1_help_help, processV1_translate_branch,
   processV1_tts_branch, processV1_freetext, processV1_empty_drop,
   fun _ _ _ => rfl, tryBodyV2_help_start, tryBodyV2_help_help,
   tryBodyV2_translate_branch, tryBodyV2_tts_branch, tryBodyV2_freetext,
   tryBodyV2_empty_drop⟩

/-- C3 amended witness: plain free text reaches the chat handler in both
revisions. -/
theorem dispatch_precedence_amended_witness :
    processV1 [] ⟨0, some "hello", false⟩
        ⟨VoiceOutcome.ok "t", CloudOutcome.ok "x", TtsOutcome.uploaded, true, none,
         Except.ok (mkResult "y"), none⟩
      = handleAIChat [] 0 "hello" true none (Except.ok (mkResult "y")) none
    ∧ tryBodyV2 [] ⟨0, some "hello", false⟩
        ⟨VoiceOutcome.ok "t", CloudOutcome.ok "x", TtsOutcome.uploaded, none,
         Except.ok "y", none⟩
      = chatBranchV2 [] 0 "hello" none (Except.ok "y") none :=
  ⟨dispatch_precedence_amended.2.2.2.2.2.2.2.1 [] 0 "hello" _
    (by decide) (by decide) (by decide) (by decide) (by decide) (by decide),
   dispatch_precedence_amended.2.2.2.2.2.2.2.2.2.2.2.2.2.2.1 [] 0 "hello" _
    (by decide) (by decide) (by decide) (by decide) (by decide) (by decide)⟩

/-- C4 counterexample.  In revision 2 a `/translate` whose remainder is only
whitespace still calls the external translation service (with empty content)
and no usage string is sent. -/
theorem translate_guard_cex :
    webhookV2 [] (some ⟨0, some "/translate   ", false⟩)
        ⟨VoiceOutcome.ok "t", CloudOutcome.ok "X", TtsOutcome.uploaded, none,
         Except.ok "y", none⟩
      = ([], [Action.ext (ExtCall.translateCall ""),
              Action.ext (ExtCall.sendMessage "翻译: X")])
    ∧ Action.ext (ExtCall.translateCall "")
        ∈ (webhookV2 [] (some ⟨0, some "/translate   ", false⟩)
            ⟨VoiceOutcome.ok "t", CloudOutcome.ok "X", TtsOutcome.uploaded, none,
             Except.ok "y", none⟩).2
    ∧ Action.ext (ExtCall.sendMessage "❓ 用法: /translate <要翻译的文本>")
        ∉ (webhookV2 [] (some ⟨0, some "/translate   ", false⟩)
            ⟨VoiceOutcome.ok "t", CloudOutcome.ok "X", TtsOutcome.uploaded, none,
             Except.ok "y", none⟩).2 := by
  refine ⟨rfl, by decide, by decide⟩

/-- C4 amended.  Revision 1 answers a whitespace-only `/translate` remainder
with the usage string and performs no external call; revision 2 has no such
guard and always invokes the translation service with the trimmed (possibly
empty) remainder. -/
theorem translate_usage_amended :
    (∀ (s : Store) (c : ChatId) (w : String) (o : OraclesV1), jsTrim w = "" →
        processV1 s ⟨c, some ("/translate" ++ w), false⟩ o
          = (s, [ExtCall.sendMessage "❓ 用法: /translate <要翻译的文本>"]))
    ∧ (∀ (s : Store) (c : ChatId) (w : String) (o : OraclesV2) (tr : String),
        o.translation = CloudOutcome.ok tr →
        tryBodyV2 s ⟨c, some ("/translate" ++ w), false⟩ o
          = Sum.inl (s, [ExtCall.translateCall (jsTrim w),
                         ExtCall.sendMessage ("翻译: " ++ tr)], true)) := by
  constructor
  · intro s c w o hw
    rw [processV1_translate_branch, if_pos hw]
  · intro s c w o tr htr
    rw [tryBodyV2_translate_branch, htr]

/-- C4 amended witness at a whitespace-only remainder. -/
theorem translate_usage_amended_witness :
    processV1 [] ⟨0, some ("/translate" ++ "   "), false⟩
        ⟨VoiceOutcome.ok "t", CloudOutcome.ok "x", TtsOutcome.uploaded, true, none,
         Except.ok (mkResult "y"), none⟩
      = ([], [ExtCall.sendMessage "❓ 用法: /translate <要翻译的文本>"])
    ∧ tryBodyV2 [] ⟨0, some ("/translate" ++ "   "), false⟩
        ⟨VoiceOutcome.ok "t", CloudOutcome.ok "X", TtsOutcome.uploaded, none,
         Except.ok "y", none⟩
      = Sum.inl ([], [ExtCall.translateCall (jsTrim "   "),
                      ExtCall.sendMessage ("翻译: " ++ "X")], true) :=
  ⟨translate_usage_amended.1 [] 0 "   " _ (by decide),
   translate_usage_amended.2 [] 0 "   " _ "X" rfl⟩

/-- C2.  Revision 1 always acknowledges `200 OK` as its very first action,
before any processing; a revision-2 body without a message is also answered
at once.  But revision 2 processes a present message first: the `/reset`
branch (and the help/translate/tts branches alike) returns without ever
sending the acknowledgement, and even the free-text path acknowledges only
after the whole exchange. -/
theorem webhookV2_withholds_ack :
    (∀ (s : Store) (b : Option Msg) (k : Bool) (o : OraclesV1),
        ((webhookV1 s b k o).2).head? = some Action.respond200)
    ∧ (∀ (s : Store) (o : OraclesV2), webhookV2 s none o = (s, [Action.respond200]))
    ∧ webhookV2 [] (some ⟨0, some "/reset", false⟩)
        ⟨VoiceOutcome.ok "t", CloudOutcome.ok "x", TtsOutcome.uploaded, none,
         Except.ok "y", none⟩
      = ([], [Action.ext (ExtCall.sendMessage "对话上下文已清空。")])
    ∧ Action.respond200 ∉ (webhookV2 [] (some ⟨0, some "/reset", false⟩)
        ⟨VoiceOutcome.ok "t", CloudOutcome.ok "x", TtsOutcome.uploaded, none,
         Except.ok "y", none⟩).2
    ∧ (webhookV2 [] (some ⟨0, some "hi", false⟩)
        ⟨VoiceOutcome.ok "t", CloudOutcome.ok "x", TtsOutcome.uploaded, none,
         Except.ok "y", none⟩).2
      = [Action.ext ExtCall.sendChatAction, Action.ext ExtCall.geminiCall,
         Action.ext (ExtCall.sendMessage "y"), Action.respond200] := by
  refine ⟨?_, fun s o => rfl, rfl, by decide, rfl⟩
  intro s b k o
  cases b with
  | none => rfl
  | some m => cases k <;> rfl

/-- C7 counterexample.  No single class-to-explanation map reproduces the
chat messages: the two failures of the bad-request/content-filtered class
(HTTP 400 and a safety block) already receive two different explanations, so
the claimed "each class is mapped to a distinct human-readable explanation"
fails on the code. -/
theorem error_class_explanation_cex :
    ¬ ∃ f : FailureClass → String,
        (∀ (o : FetchOutcome) (m : String), callGeminiAPI o = Except.error m →
            chatErrorMessage m = f (classifyOutcome o))
        ∧ Function.Injective f := by
  rintro ⟨f, hf, -⟩
  have h1 := hf (FetchOutcome.httpError 400 "Bad Request")
      "BAD_REQUEST: 请求格式错误或内容被安全过滤器阻止" rfl
  have h2 := hf (FetchOutcome.ok ⟨none, [⟨none, some "SAFETY"⟩]⟩)
      "CONTENT_BLOCKED: 内容被安全过滤器阻止，请重新组织您的问题" rfl
  have hc1 : classifyOutcome (FetchOutcome.httpError 400 "Bad Request")
      = FailureClass.badRequest := by decide
  have hc2 : classifyOutcome (FetchOutcome.ok ⟨none, [⟨none, some "SAFETY"⟩]⟩)
      = FailureClass.badRequest := by decide
  rw [hc1] at h1
  rw [hc2] at h2
  have hsame : chatErrorMessage "BAD_REQUEST: 请求格式错误或内容被安全过滤器阻止"
      = chatErrorMessage "CONTENT_BLOCKED: 内容被安全过滤器阻止，请重新组织您的问题" := by
    rw [h1, h2]
  exact absurd hsame (by decide)

/-- C7 amended.  Every failing Gemini call is classified by status code and
message substrings; auth- and quota-class failures always receive their
dedicated explanations, the canonical failure of each of the five classes is
answered with a classified error message, and those messages produce pairwise
distinct chat explanations — but the class does not determine the explanation
uniquely (see the counterexample). -/
theorem error_class_explanation_amended :
    (∀ (o : FetchOutcome) (m : String), callGeminiAPI o = Except.error m →
        classifyOutcome o = FailureClass.auth →
        chatErrorMessage m
          = "❌ AI聊天暂时不可用\n\n🔑 API Key 问题：\n• 请检查 GOOGLE_AI_API_KEY 是否正确\n• 确保 API Key 有效且未过期")
    ∧ (∀ (o : FetchOutcome) (m : String), callGeminiAPI o = Except.error m →
        classifyOutcome o = FailureClass.quota →
        chatErrorMessage m
          = "❌ AI聊天暂时不可用\n\n📊 配额超限：\n• Google AI Studio 配额已用完\n• 请等待配额重置或升级计划")
    ∧ (callGeminiAPI (FetchOutcome.httpError 403 "Forbidden")
        = Except.error "API_KEY_INVALID: Google AI Studio API Key 无效或无权限"
       ∧ callGeminiAPI (FetchOutcome.httpError 429 "Too Many Requests")
        = Except.error "QUOTA_EXCEEDED: API 配额已用完，请等待重置"
       ∧ callGeminiAPI (FetchOutcome.httpError 400 "Bad Request")
        = Except.error "BAD_REQUEST: 请求格式错误或内容被安全过滤器阻止"
       ∧ callGeminiAPI (FetchOutcome.threw "fetch failed" (some "ENOTFOUND") none)
        = Except.error "NETWORK_ERROR: 网络连接失败，请检查网络设置"
       ∧ callGeminiAPI (FetchOutcome.threw "aborted" none (some "AbortError"))
        = Except.error "TIMEOUT_ERROR: 请求超时，请稍后重试"
       ∧ callGeminiAPI (FetchOutcome.threw "boom" none none)
        = Except.error ("UNEXPECTED_ERROR: " ++ "boom"))
    ∧ [chatErrorMessage "API_KEY_INVALID: Google AI Studio API Key 无效或无权限",
       chatErrorMessage "QUOTA_EXCEEDED: API 配额已用完，请等待重置",
       chatErrorMessage "BAD_REQUEST: 请求格式错误或内容被安全过滤器阻止",
       chatErrorMessage "NETWORK_ERROR: 网络连接失败，请检查网络设置",
       chatErrorMessage ("UNEXPECTED_ERROR: " ++ "boom")].Pairwise Ne := by
  refine ⟨?_, ?_, by refine ⟨rfl, rfl, rfl, rfl, rfl, rfl⟩, by decide⟩
  · intro o m hm hcls
    cases o with
    | httpError status st =>
      by_cases h403 : status = 403
      · subst h403
        have hm2 : (Except.error "API_KEY_INVALID: Google AI Studio API Key 无效或无权限" :
            Except String GeminiResult) = Except.error m := hm
        injection hm2 with h
        rw [← h]
        decide
      · exfalso
        simp only [classifyOutcome, if_neg h403] at hcls
        split at hcls
        · exact absurd hcls (by decide)
        · split at hcls
          · exact absurd hcls (by decide)
          · exact absurd hcls (by decide)
    | ok r =>
      exfalso
      rcases r with ⟨err, cands⟩
      cases err with
      | some e => simp [classifyOutcome] at hcls
      | none =>
        cases cands with
        | nil => exact absurd hcls (by decide)
        | cons cand rest =>
          simp only [classifyOutcome] at hcls
          split at hcls
          · exact absurd hcls (by decide)
          · exact absurd hcls (by decide)
    | threw msg code name =>
      exfalso
      simp only [classifyOutcome] at hcls
      split at hcls
      · exact absurd hcls (by decide)
      · split at hcls
        · exact absurd hcls (by decide)
        · exact absurd hcls (by decide)
  · intro o m hm hcls
    cases o with
    | httpError status st =>
      by_cases h403 : status = 403
      · exfalso
        subst h403
        simp [classifyOutcome] at hcls
      · by_cases h429 : status = 429
        · subst h429
          have hm2 : (Except.error "QUOTA_EXCEEDED: API 配额已用完，请等待重置" :
              Except String GeminiResult) = Except.error m := hm
          injection hm2 with h
          rw [← h]
          decide
        · exfalso
          simp only [classifyOutcome, if_neg h403, if_neg h429] at hcls
          split at hcls
          · exact absurd hcls (by decide)
          · exact absurd hcls (by decide)
    | ok r =>
      exfalso
      rcases r with ⟨err, cands⟩
      cases err with
      | some e => simp [classifyOutcome] at hcls
      | none =>
        cases cands with
        | nil => exact absurd hcls (by decide)
        | cons cand rest =>
          simp only [classifyOutcome] at hcls
          split at hcls
          · exact absurd hcls (by decide)
          · exact absurd hcls (by decide)
    | threw msg code name =>
      exfalso
      simp only [classifyOutcome] at hcls
      split at hcls
      · exact absurd hcls (by decide)
      · split at hcls
        · exact absurd hcls (by decide)
        · exact absurd hcls (by decide)

/-- C7 amended witness at the canonical auth failure. -/
theorem error_class_explanation_amended_witness :
    chatErrorMessage "API_KEY_INVALID: Google AI Studio API Key 无效或无权限"
      = "❌ AI聊天暂时不可用\n\n🔑 API Key 问题：\n• 请检查 GOOGLE_AI_API_KEY 是否正确\n• 确保 API Key 有效且未过期" :=
  error_class_explanation_amended.1 (FetchOutcome.httpError 403 "Forbidden") _ rfl rfl

end SpeakMate
